import Mathlib

/-
Shallow embedding of the python-aws-monitor health-check tool.

The repository contains two parallel implementations of the core
check-with-retry routine and the reporting pass:

  * src/monitor.py                               (standalone script)
      check_endpoint, run_health_checks, main
  * src/src/python_health_monitor/monitor.py     (packaged version)
      check_url, main

Both check routines run the same loop `for attempt in range(1, retries+1)`:
issue one GET, return success immediately on the accepted status, catch
every exception (Timeout / ConnectionError / RequestException / Exception)
as a failed attempt, and sleep `delay` seconds after a failed attempt when
`attempt < retries`.  They differ in the accepted status (check_endpoint
compares against endpoint['expected_status'] with default 200, check_url
compares against the literal 200) and in the final failure message
("Failed after N attempts" versus "🚫Failed after N attempts").

The HTTP client is modelled as an oracle `Nat → HttpOutcome` giving the
outcome of each attempt (1-based); blocking sleeps are recorded in the
returned trace rather than performed.
-/

namespace HealthMonitor

/-- The exception classes caught by the per-attempt try/except blocks:
requests.exceptions.Timeout, requests.exceptions.ConnectionError,
requests.exceptions.RequestException, and the final bare Exception. -/
inductive FaultKind where
| timeout : FaultKind
| connectionError : FaultKind
| requestException : FaultKind
| otherError : FaultKind
deriving DecidableEq

/-- Outcome of one HTTP GET: either the call completes with a status code,
or it raises one of the caught exception classes. -/
inductive HttpOutcome where
| status : Nat → HttpOutcome
| fault : FaultKind → HttpOutcome
deriving DecidableEq

/-- One endpoint entry of the YAML configuration: a dict with keys
'url' (required by the spec, possibly absent in a malformed entry),
'name' (optional) and 'expected_status' (optional, default 200). -/
structure EndpointSpec where
url : Option String
name : Option String
expected_status : Option Nat
deriving DecidableEq

/-- Observable behaviour of one call to a check routine: the returned
(success, message) pair, the number of HTTP GET calls issued, and the
durations of the time.sleep calls, in order. -/
structure CheckTrace where
success : Bool
message : String
attempts : Nat
sleeps : List Nat
deriving DecidableEq

/-- Whether an attempt outcome is a completed call whose status code equals
the accepted status. -/
def matchesStatus (expected : Nat) : HttpOutcome → Bool
| HttpOutcome.status code => decide (code = expected)
| HttpOutcome.fault _ => false

/-- The loop `for attempt in range(1, retries + 1)` shared verbatim by
check_endpoint (src/monitor.py) and check_url (packaged monitor.py),
parametrised by the accepted status and by the final failure message.
`attempt` is the 1-based loop counter and `fuel` the number of remaining
iterations (`retries + 1 - attempt` at every real call site).  On a
completed call with the accepted status the loop returns
(True, "Success: <status>") at once; on any other outcome — wrong status
or any caught exception — it falls through to the retry path, sleeping
`delay` when `attempt < retries`; when the range is exhausted it returns
(False, failMsg). -/
def retryLoop (expected retries delay : Nat) (failMsg : String)
    (http : Nat → HttpOutcome) : Nat → Nat → CheckTrace
| _, 0 => { success := false, message := failMsg, attempts := 0, sleeps := [] }
| attempt, fuel + 1 =>
  match http attempt with
  | HttpOutcome.status code =>
    if code = expected then
      { success := true, message := "Success: " ++ toString code,
        attempts := 1, sleeps := [] }
    else
      let rest := retryLoop expected retries delay failMsg http (attempt + 1) fuel
      { success := rest.success, message := rest.message,
        attempts := rest.attempts + 1,
        sleeps := (if attempt < retries then [delay] else []) ++ rest.sleeps }
  | HttpOutcome.fault _ =>
    let rest := retryLoop expected retries delay failMsg http (attempt + 1) fuel
    { success := rest.success, message := rest.message,
      attempts := rest.attempts + 1,
      sleeps := (if attempt < retries then [delay] else []) ++ rest.sleeps }

/-- requests.get applied to the value extracted with endpoint.get('url'):
when the url is None the call raises MissingSchema (a RequestException)
before any network traffic, hence the outcome is a fault independent of
the network oracle; otherwise the oracle supplies the outcome. -/
def requests_get (url : Option String) (http : Nat → HttpOutcome) :
    Nat → HttpOutcome :=
  fun i =>
    match url with
    | none => HttpOutcome.fault FaultKind.requestException
    | some _ => http i

/-- check_endpoint of src/monitor.py: accepted status is
endpoint.get('expected_status', 200); the url is endpoint.get('url')
(possibly None); failure message "Failed after <retries> attempts". -/
def check_endpoint (ep : EndpointSpec) (retries delay : Nat)
    (http : Nat → HttpOutcome) : CheckTrace :=
  retryLoop (ep.expected_status.getD 200) retries delay
    ("Failed after " ++ toString retries ++ " attempts")
    (requests_get ep.url http) 1 retries

/-- check_url of the packaged monitor.py: the url parameter is the string
main extracted with endpoint["url"]; the accepted status is the literal
200 (no expected_status is consulted); failure message
"🚫Failed after <retries> attempts". -/
def check_url (url : String) (retries delay : Nat)
    (http : Nat → HttpOutcome) : CheckTrace :=
  retryLoop 200 retries delay
    ("🚫Failed after " ++ toString retries ++ " attempts")
    (requests_get (some url) http) 1 retries

example : (check_url "http://x" 3 2 (fun _ => HttpOutcome.status 200)).success = true := by decide

example : (check_url "http://x" 2 7 (fun _ => HttpOutcome.status 500)) =
    { success := false, message := "🚫Failed after 2 attempts", attempts := 2, sleeps := [7] } := by decide

example : (check_endpoint { url := some "u", name := none, expected_status := some 301 } 2 7
    (fun _ => HttpOutcome.status 301)) =
    { success := true, message := "Success: 301", attempts := 1, sleeps := [] } := by decide

/-- The per-endpoint result dict appended to `results` by both reporting
loops: {'name': ..., 'url': ..., 'success': ..., 'message': ...}. -/
structure CheckResultRec where
name : Option String
url : Option String
success : Bool
message : String
deriving DecidableEq

/-- The summary block shared by run_health_checks (src/monitor.py) and by
main (packaged monitor.py): successful = sum(1 for r in results if
r['success']); total = len(results); the failed list [r for r in results
if not r['success']] is built only in the not-all-healthy branch.
Returns (successful, total, failed). -/
def summarize (results : List CheckResultRec) : Nat × Nat × List CheckResultRec :=
  let successful := (results.map (fun x => if x.success then 1 else 0)).sum
  let total := results.length
  let failed := if successful = total then [] else results.filter (fun x => !x.success)
  (successful, total, failed)

/-- The endpoint loop of run_health_checks: check each endpoint in order
and collect (endpoint, trace) pairs.  The first argument of the network
oracle is the position of the endpoint in the configured list, so each
endpoint sees its own attempt outcomes. -/
def runChecks (retries delay : Nat) (http : Nat → Nat → HttpOutcome) :
    Nat → List EndpointSpec → List (EndpointSpec × CheckTrace)
| _, [] => []
| i, ep :: rest =>
  (ep, check_endpoint ep retries delay (http i)) :: runChecks retries delay http (i + 1) rest

/-- Observable behaviour of one reporting pass: whether the
no-endpoints-configured error was reported, the collected result records,
the total number of HTTP GET calls issued, and the summary fields. -/
structure RunReport where
configError : Bool
results : List CheckResultRec
httpCalls : Nat
successful : Nat
total : Nat
failed : List CheckResultRec
deriving DecidableEq

/-- The result dict the script's loop appends for one endpoint:
{'name': endpoint.get('name', endpoint.get('url')), 'url':
endpoint.get('url'), 'success': success, 'message': message}. -/
def script_result (q : EndpointSpec × CheckTrace) : CheckResultRec :=
  { name := q.1.name.orElse (fun _ => q.1.url), url := q.1.url,
    success := q.2.success, message := q.2.message }

/-- run_health_checks of src/monitor.py: with no endpoints it logs
"No endpoints configured for monitoring" and returns without checking
anything; otherwise it checks every endpoint in order (no skipping — a
missing url is passed to check_endpoint as None) and computes the
summary. -/
def run_health_checks (endpoints : List EndpointSpec) (retries delay : Nat)
    (http : Nat → Nat → HttpOutcome) : RunReport :=
  if endpoints.isEmpty then
    { configError := true, results := [], httpCalls := 0,
      successful := 0, total := 0, failed := [] }
  else
    let checked := runChecks retries delay http 0 endpoints
    let results := checked.map script_result
    let s := summarize results
    { configError := false, results := results,
      httpCalls := (checked.map (fun q => q.2.attempts)).sum,
      successful := s.1, total := s.2.1, failed := s.2.2 }

/-- Observable behaviour of a main entry point: the process exit code in
addition to the RunReport fields. -/
structure MainReport where
exitCode : Nat
configError : Bool
results : List CheckResultRec
httpCalls : Nat
successful : Nat
total : Nat
failed : List CheckResultRec
deriving DecidableEq

/-- main of src/monitor.py: returns 1 only when the loaded configuration
is falsy ("Could not load configuration"); otherwise it calls
run_health_checks — whose empty-endpoint early return is NOT an error for
main — and returns 0. -/
def script_main (configLoaded : Bool) (endpoints : List EndpointSpec)
    (retries delay : Nat) (http : Nat → Nat → HttpOutcome) : MainReport :=
  if configLoaded then
    let rep := run_health_checks endpoints retries delay http
    { exitCode := 0, configError := rep.configError, results := rep.results,
      httpCalls := rep.httpCalls, successful := rep.successful,
      total := rep.total, failed := rep.failed }
  else
    { exitCode := 1, configError := true, results := [], httpCalls := 0,
      successful := 0, total := 0, failed := [] }

/-- The body of the endpoint loop of the packaged main: url =
endpoint["url"] raises KeyError when the key is missing, which the
per-endpoint except block catches and logs, appending nothing; otherwise
check_url runs and a result record (name = endpoint.get("name", url)) is
appended.  Returns the record together with the number of GET calls. -/
def packaged_process_endpoint (retries delay : Nat) (http : Nat → HttpOutcome)
    (ep : EndpointSpec) : Option (CheckResultRec × Nat) :=
  match ep.url with
  | none => none
  | some u =>
    let t := check_url u retries delay http
    some ({ name := some (ep.name.getD u), url := some u,
            success := t.success, message := t.message }, t.attempts)

/-- The endpoint loop of the packaged main: process each endpoint in
order, skipping entries whose url key is missing. -/
def packagedChecks (retries delay : Nat) (http : Nat → Nat → HttpOutcome) :
    Nat → List EndpointSpec → List (CheckResultRec × Nat)
| _, [] => []
| i, ep :: rest =>
  match packaged_process_endpoint retries delay (http i) ep with
  | none => packagedChecks retries delay http (i + 1) rest
  | some q => q :: packagedChecks retries delay http (i + 1) rest

/-- main of the packaged monitor.py: exit(1) when the loaded configuration
is falsy, when the logging configuration keys are missing, or when the
endpoint list is empty; otherwise run the per-endpoint loop (skipping
entries without a url), compute the summary, and finish with exit code 0. -/
def packaged_main (configLoaded loggingOk : Bool) (endpoints : List EndpointSpec)
    (retries delay : Nat) (http : Nat → Nat → HttpOutcome) : MainReport :=
  if ¬configLoaded then
    { exitCode := 1, configError := true, results := [], httpCalls := 0,
      successful := 0, total := 0, failed := [] }
  else if ¬loggingOk then
    { exitCode := 1, configError := true, results := [], httpCalls := 0,
      successful := 0, total := 0, failed := [] }
  else if endpoints.isEmpty then
    { exitCode := 1, configError := true, results := [], httpCalls := 0,
      successful := 0, total := 0, failed := [] }
  else
    let checked := packagedChecks retries delay http 0 endpoints
    let results := checked.map (fun q => q.1)
    let s := summarize results
    { exitCode := 0, configError := false, results := results,
      httpCalls := (checked.map (fun q => q.2)).sum,
      successful := s.1, total := s.2.1, failed := s.2.2 }

/-! Core lemmas about the shared retry loop. -/

theorem requests_get_some (u : String) (http : Nat → HttpOutcome) :
    requests_get (some u) http = http := rfl

theorem retryLoop_step_succ (e r d : Nat) (m : String) (h : Nat → HttpOutcome)
    (a n : Nat) (hfa : matchesStatus e (h a) = true) :
    retryLoop e r d m h a (n + 1) =
      { success := true, message := "Success: " ++ toString e,
        attempts := 1, sleeps := [] } := by
  cases hh : h a with
  | status code =>
    rw [hh] at hfa
    simp only [matchesStatus, decide_eq_true_eq] at hfa
    subst hfa
    simp [retryLoop, hh]
  | fault k =>
    rw [hh] at hfa
    simp [matchesStatus] at hfa

theorem retryLoop_step_fail (e r d : Nat) (m : String) (h : Nat → HttpOutcome)
    (a n : Nat) (hfa : matchesStatus e (h a) = false) :
    retryLoop e r d m h a (n + 1) =
      { success := (retryLoop e r d m h (a + 1) n).success,
        message := (retryLoop e r d m h (a + 1) n).message,
        attempts := (retryLoop e r d m h (a + 1) n).attempts + 1,
        sleeps := (if a < r then [d] else []) ++ (retryLoop e r d m h (a + 1) n).sleeps } := by
  cases hh : h a with
  | status code =>
    rw [hh] at hfa
    simp only [matchesStatus, decide_eq_false_iff_not] at hfa
    simp [retryLoop, hh, hfa]
  | fault k =>
    simp [retryLoop, hh]

theorem retryLoop_shape (e r d : Nat) (m : String) (h : Nat → HttpOutcome) :
    ∀ f a,
      ((retryLoop e r d m h a f).success = true ∧
        (retryLoop e r d m h a f).message = "Success: " ++ toString e) ∨
      ((retryLoop e r d m h a f).success = false ∧
        (retryLoop e r d m h a f).message = m ∧
        (retryLoop e r d m h a f).attempts = f) := by
  intro f
  induction f with
  | zero =>
    intro a
    right
    simp [retryLoop]
  | succ n ih =>
    intro a
    cases hfa : matchesStatus e (h a) with
    | true =>
      left
      rw [retryLoop_step_succ e r d m h a n hfa]
      exact ⟨rfl, rfl⟩
    | false =>
      rw [retryLoop_step_fail e r d m h a n hfa]
      rcases ih (a + 1) with hca | hca
      · left; exact ⟨hca.1, hca.2⟩
      · right
        exact ⟨hca.1, hca.2.1, by rw [hca.2.2]⟩

theorem retryLoop_success_iff (e r d : Nat) (m : String) (h : Nat → HttpOutcome) :
    ∀ f a,
      (retryLoop e r d m h a f).success = true ↔
        ∃ j, a ≤ j ∧ j < a + f ∧ matchesStatus e (h j) = true := by
  intro f
  induction f with
  | zero =>
    intro a
    constructor
    · intro hs
      simp [retryLoop] at hs
    · rintro ⟨j, hj1, hj2, _⟩
      omega
  | succ n ih =>
    intro a
    cases hfa : matchesStatus e (h a) with
    | true =>
      rw [retryLoop_step_succ e r d m h a n hfa]
      constructor
      · intro _
        exact ⟨a, le_refl a, by omega, hfa⟩
      · intro _
        rfl
    | false =>
      rw [retryLoop_step_fail e r d m h a n hfa]
      constructor
      · intro hs
        rcases (ih (a + 1)).1 hs with ⟨j, hj1, hj2, hj3⟩
        exact ⟨j, by omega, by omega, hj3⟩
      · rintro ⟨j, hj1, hj2, hj3⟩
        have hja : j ≠ a := by
          intro hEq
          rw [hEq, hfa] at hj3
          exact Bool.false_ne_true hj3
        exact (ih (a + 1)).2 ⟨j, by omega, by omega, hj3⟩

theorem retryLoop_first_match (e r d : Nat) (m : String) (h : Nat → HttpOutcome) :
    ∀ f a j, a ≤ j → j < a + f → j ≤ r →
      matchesStatus e (h j) = true →
      (∀ i, a ≤ i → i < j → matchesStatus e (h i) = false) →
      retryLoop e r d m h a f =
        { success := true, message := "Success: " ++ toString e,
          attempts := j + 1 - a, sleeps := List.replicate (j - a) d } := by
  intro f
  induction f with
  | zero =>
    intro a j h1 h2
    omega
  | succ n ih =>
    intro a j h1 h2 h3 hm hb
    rcases Nat.eq_or_lt_of_le h1 with hEq | hlt
    · subst hEq
      rw [retryLoop_step_succ e r d m h a n hm]
      simp
    · have hfa : matchesStatus e (h a) = false := hb a (le_refl a) hlt
      rw [retryLoop_step_fail e r d m h a n hfa]
      have hrest := ih (a + 1) j (by omega) (by omega) h3 hm
        (fun i hi1 hi2 => hb i (by omega) hi2)
      rw [hrest]
      have har : a < r := by omega
      rw [if_pos har]
      have hrep : List.replicate (j - a) d = d :: List.replicate (j - (a + 1)) d := by
        have hs : j - a = (j - (a + 1)) + 1 := by omega
        rw [hs, List.replicate_succ]
      simp [hrep]
      omega

theorem retryLoop_all_fail (e r d : Nat) (m : String) (h : Nat → HttpOutcome) :
    ∀ f a, a + f = r + 1 →
      (∀ i, a ≤ i → i < a + f → matchesStatus e (h i) = false) →
      retryLoop e r d m h a f =
        { success := false, message := m, attempts := f,
          sleeps := List.replicate (f - 1) d } := by
  intro f
  induction f with
  | zero =>
    intro a _ _
    simp [retryLoop]
  | succ n ih =>
    intro a hinv hb
    have hfa : matchesStatus e (h a) = false := hb a (le_refl a) (by omega)
    rw [retryLoop_step_fail e r d m h a n hfa]
    rcases Nat.eq_zero_or_pos n with hn | hn
    · subst hn
      have har : ¬ a < r := by omega
      simp [retryLoop, har]
    · have hrest := ih (a + 1) (by omega) (fun i hi1 hi2 => hb i (by omega) (by omega))
      rw [hrest]
      have har : a < r := by omega
      rw [if_pos har]
      have hrep : d :: List.replicate (n - 1) d = List.replicate n d := by
        rw [← List.replicate_succ]
        congr 1
        omega
      simp [hrep]

theorem retryLoop_attempts_pos (e r d : Nat) (m : String) (h : Nat → HttpOutcome)
    (n a : Nat) : 1 ≤ (retryLoop e r d m h a (n + 1)).attempts := by
  cases hfa : matchesStatus e (h a) with
  | true =>
    rw [retryLoop_step_succ e r d m h a n hfa]
  | false =>
    rw [retryLoop_step_fail e r d m h a n hfa]
    exact Nat.succ_le_succ (Nat.zero_le _)

theorem retryLoop_sleeps (e r d : Nat) (m : String) (h : Nat → HttpOutcome) :
    ∀ f a, a + f = r + 1 →
      (retryLoop e r d m h a f).sleeps =
        List.replicate ((retryLoop e r d m h a f).attempts - 1) d := by
  intro f
  induction f with
  | zero =>
    intro a _
    simp [retryLoop]
  | succ n ih =>
    intro a hinv
    cases hfa : matchesStatus e (h a) with
    | true =>
      rw [retryLoop_step_succ e r d m h a n hfa]
      simp
    | false =>
      rw [retryLoop_step_fail e r d m h a n hfa]
      rcases Nat.eq_zero_or_pos n with hn | hn
      · subst hn
        have har : ¬ a < r := by omega
        simp [retryLoop, har]
      · have hrest := ih (a + 1) (by omega)
        have hpos : 1 ≤ (retryLoop e r d m h (a + 1) n).attempts := by
          rcases Nat.exists_eq_add_of_lt hn with ⟨k, hk⟩
          rw [show n = k + 1 by omega]
          exact retryLoop_attempts_pos e r d m h k (a + 1)
        have har : a < r := by omega
        rw [if_pos har, hrest]
        have hs : (retryLoop e r d m h (a + 1) n).attempts + 1 - 1 =
            ((retryLoop e r d m h (a + 1) n).attempts - 1) + 1 := by omega
        rw [hs, List.replicate_succ]
        rfl

theorem retryLoop_frame (e r d : Nat) (m : String) (h1 h2 : Nat → HttpOutcome) :
    ∀ f a, (∀ i, a ≤ i → i < a + f → h1 i = h2 i) →
      retryLoop e r d m h1 a f = retryLoop e r d m h2 a f := by
  intro f
  induction f with
  | zero =>
    intro a _
    simp [retryLoop]
  | succ n ih =>
    intro a hag
    have ha : h1 a = h2 a := hag a (le_refl a) (by omega)
    have hrest := ih (a + 1) (fun i hi1 hi2 => hag i (by omega) (by omega))
    have hfa : matchesStatus e (h1 a) = matchesStatus e (h2 a) := by rw [ha]
    cases hm : matchesStatus e (h2 a) with
    | true =>
      rw [retryLoop_step_succ e r d m h1 a n (by rw [hfa, hm]),
        retryLoop_step_succ e r d m h2 a n hm]
    | false =>
      rw [retryLoop_step_fail e r d m h1 a n (by rw [hfa, hm]),
        retryLoop_step_fail e r d m h2 a n hm, hrest]

/-! Lemmas about the aggregation pass. -/

theorem sum_success_le_length (l : List CheckResultRec) :
    (l.map (fun x => if x.success then 1 else 0)).sum ≤ l.length := by
  induction l with
  | nil => simp
  | cons x xs ih =>
    cases hx : x.success with
    | true =>
      simp [hx]
      omega
    | false =>
      simp [hx]
      omega

theorem sum_success_eq_filter_length (l : List CheckResultRec) :
    (l.map (fun x => if x.success then 1 else 0)).sum =
      (l.filter (fun x => x.success)).length := by
  induction l with
  | nil => simp
  | cons x xs ih =>
    cases hx : x.success with
    | true =>
      simp [List.filter_cons, hx, ih]
      omega
    | false =>
      simp [List.filter_cons, hx, ih]

theorem filter_not_success_eq_nil (l : List CheckResultRec)
    (hsum : (l.map (fun x => if x.success then 1 else 0)).sum = l.length) :
    l.filter (fun x => !x.success) = [] := by
  induction l with
  | nil => rfl
  | cons x xs ih =>
    cases hx : x.success with
    | true =>
      simp only [List.map_cons, List.sum_cons, List.length_cons, hx, if_true] at hsum
      have hxs := ih (by omega)
      simp [List.filter_cons, hx, hxs]
    | false =>
      exfalso
      have hle := sum_success_le_length xs
      simp [hx] at hsum
      omega

theorem summarize_spec (results : List CheckResultRec) :
    (summarize results).1 = (results.filter (fun x => x.success)).length ∧
    (summarize results).2.1 = results.length ∧
    (summarize results).1 ≤ (summarize results).2.1 ∧
    (summarize results).2.2 = results.filter (fun x => !x.success) := by
  refine ⟨sum_success_eq_filter_length results, rfl, sum_success_le_length results, ?_⟩
  show (if (results.map (fun x => if x.success then 1 else 0)).sum = results.length
    then [] else results.filter (fun x => !x.success)) = results.filter (fun x => !x.success)
  by_cases hq : (results.map (fun x => if x.success then 1 else 0)).sum = results.length
  · rw [if_pos hq]
    exact (filter_not_success_eq_nil results hq).symm
  · rw [if_neg hq]

theorem runChecks_length (retries delay : Nat) (http : Nat → Nat → HttpOutcome) :
    ∀ (l : List EndpointSpec) (i : Nat),
      (runChecks retries delay http i l).length = l.length := by
  intro l
  induction l with
  | nil => intro i; rfl
  | cons x xs ih => intro i; simp [runChecks, ih]

theorem runChecks_map_url (retries delay : Nat) (http : Nat → Nat → HttpOutcome) :
    ∀ (l : List EndpointSpec) (i : Nat),
      (runChecks retries delay http i l).map (fun q => q.1.url) =
        l.map (fun ep => ep.url) := by
  intro l
  induction l with
  | nil => intro i; rfl
  | cons x xs ih => intro i; simp [runChecks, ih]

theorem packagedChecks_length (retries delay : Nat) (http : Nat → Nat → HttpOutcome) :
    ∀ (l : List EndpointSpec) (i : Nat),
      (packagedChecks retries delay http i l).length =
        (l.filter (fun x => x.url.isSome)).length := by
  intro l
  induction l with
  | nil => intro i; rfl
  | cons x xs ih =>
    intro i
    cases hx : x.url with
    | none =>
      simp [packagedChecks, packaged_process_endpoint, hx, ih, List.filter_cons]
    | some u =>
      simp [packagedChecks, packaged_process_endpoint, hx, ih, List.filter_cons]

/-! Concrete endpoints and network oracles used by witnesses and
counterexamples. -/

/-- An ordinary endpoint entry: url present, no expected_status (so the
default 200 applies). -/
def epOk : EndpointSpec :=
  { url := some "http://x/ok", name := some "ok", expected_status := none }

/-- An endpoint entry that configures expected_status 301. -/
def ep301 : EndpointSpec :=
  { url := some "http://x/moved", name := none, expected_status := some 301 }

/-- A malformed endpoint entry: the required url key is missing. -/
def epNoUrl : EndpointSpec :=
  { url := none, name := some "broken", expected_status := none }

/-- A server that always answers 200. -/
def http200 : Nat → HttpOutcome := fun _ => HttpOutcome.status 200

/-- A server that always answers 301. -/
def http301 : Nat → HttpOutcome := fun _ => HttpOutcome.status 301

/-- A server that always answers 500. -/
def http500 : Nat → HttpOutcome := fun _ => HttpOutcome.status 500

/-- A server that times out on attempts 1 and 2 and answers 200 from
attempt 3 on. -/
def httpFlaky : Nat → HttpOutcome := fun i =>
  if i < 3 then HttpOutcome.fault FaultKind.timeout else HttpOutcome.status 200

/-- A server answering status 100 + i on attempt i. -/
def httpA : Nat → HttpOutcome := fun i => HttpOutcome.status (100 + i)

/-- A server agreeing with httpA on attempts 1..3 and diverging later. -/
def httpB : Nat → HttpOutcome := fun i =>
  if i ≤ 3 then HttpOutcome.status (100 + i) else HttpOutcome.fault FaultKind.otherError

/-! Claim theorems. -/

/-- Claim C1, counterexample: the endpoint ep301 configures
expected_status = 301 and every attempt completes with status 301, yet
the packaged per-endpoint loop (which calls check_url, comparing against
the literal 200) reports failure — so it is not the case that check
returns success iff the returned status equals the endpoint's
expectedStatus. -/
theorem C1_counterexample :
    ep301.expected_status = some 301 ∧
    (packaged_process_endpoint 3 0 http301 ep301).map (fun q => q.1.success) =
      some false := by
  exact ⟨rfl, by decide⟩

/-- Claim C1, amended: check_endpoint (src/monitor.py) returns success iff
some attempt within maxAttempts completes with status equal to the
endpoint's expected_status (default 200), and on the first such attempt j
it returns immediately — message "Success: <status>", exactly j GET
calls; check_url (packaged monitor.py) behaves the same way with the
expected status replaced by the constant 200, ignoring any configured
expected_status. -/
theorem C1_success_iff_expected (ep : EndpointSpec) (u : String) (r d : Nat)
    (http : Nat → HttpOutcome) (hu : ep.url = some u) :
    ((check_endpoint ep r d http).success = true ↔
      ∃ i, 1 ≤ i ∧ i ≤ r ∧
        matchesStatus (ep.expected_status.getD 200) (http i) = true) ∧
    (∀ j, 1 ≤ j → j ≤ r →
      matchesStatus (ep.expected_status.getD 200) (http j) = true →
      (∀ i, 1 ≤ i → i < j →
        matchesStatus (ep.expected_status.getD 200) (http i) = false) →
      check_endpoint ep r d http =
        { success := true,
          message := "Success: " ++ toString (ep.expected_status.getD 200),
          attempts := j, sleeps := List.replicate (j - 1) d }) ∧
    ((check_url u r d http).success = true ↔
      ∃ i, 1 ≤ i ∧ i ≤ r ∧ matchesStatus 200 (http i) = true) ∧
    (∀ j, 1 ≤ j → j ≤ r → matchesStatus 200 (http j) = true →
      (∀ i, 1 ≤ i → i < j → matchesStatus 200 (http i) = false) →
      check_url u r d http =
        { success := true, message := "Success: " ++ toString 200,
          attempts := j, sleeps := List.replicate (j - 1) d }) := by
  have hre : requests_get ep.url http = http := by rw [hu]; rfl
  refine ⟨?_, ?_, ?_, ?_⟩
  · unfold check_endpoint
    rw [hre, retryLoop_success_iff]
    constructor
    · rintro ⟨i, hi1, hi2, hi3⟩
      exact ⟨i, hi1, by omega, hi3⟩
    · rintro ⟨i, hi1, hi2, hi3⟩
      exact ⟨i, hi1, by omega, hi3⟩
  · intro j h1 h2 hm hb
    unfold check_endpoint
    rw [hre]
    have hfm := retryLoop_first_match (ep.expected_status.getD 200) r d
      ("Failed after " ++ toString r ++ " attempts") http r 1 j h1 (by omega) h2 hm hb
    rw [hfm, Nat.add_sub_cancel]
  · unfold check_url
    rw [requests_get_some, retryLoop_success_iff]
    constructor
    · rintro ⟨i, hi1, hi2, hi3⟩
      exact ⟨i, hi1, by omega, hi3⟩
    · rintro ⟨i, hi1, hi2, hi3⟩
      exact ⟨i, hi1, by omega, hi3⟩
  · intro j h1 h2 hm hb
    unfold check_url
    rw [requests_get_some]
    have hfm := retryLoop_first_match 200 r d
      ("🚫Failed after " ++ toString r ++ " attempts") http r 1 j h1 (by omega) h2 hm hb
    rw [hfm, Nat.add_sub_cancel]

/-- Claim C1, witness: endpoint epOk with default expected status 200
against a server that answers 200 at once, with maxAttempts 3 and
delay 2; both iff conjuncts are instantiated and both first-match
conjuncts are exercised at j = 1. -/
theorem C1_witness :
    (((check_endpoint epOk 3 2 http200).success = true ↔
      ∃ i, 1 ≤ i ∧ i ≤ 3 ∧
        matchesStatus (epOk.expected_status.getD 200) (http200 i) = true) ∧
    check_endpoint epOk 3 2 http200 =
      { success := true,
        message := "Success: " ++ toString (epOk.expected_status.getD 200),
        attempts := 1, sleeps := List.replicate 0 2 }) ∧
    (((check_url "http://x/ok" 3 2 http200).success = true ↔
      ∃ i, 1 ≤ i ∧ i ≤ 3 ∧ matchesStatus 200 (http200 i) = true) ∧
    check_url "http://x/ok" 3 2 http200 =
      { success := true, message := "Success: " ++ toString 200,
        attempts := 1, sleeps := List.replicate 0 2 }) :=
  ⟨⟨(C1_success_iff_expected epOk "http://x/ok" 3 2 http200 rfl).1,
    (C1_success_iff_expected epOk "http://x/ok" 3 2 http200 rfl).2.1 1 (by decide)
      (by decide) (by decide) (fun i hi1 hi2 => absurd hi2 (by omega))⟩,
   ⟨(C1_success_iff_expected epOk "http://x/ok" 3 2 http200 rfl).2.2.1,
    (C1_success_iff_expected epOk "http://x/ok" 3 2 http200 rfl).2.2.2 1 (by decide)
      (by decide) (by decide) (fun i hi1 hi2 => absurd hi2 (by omega))⟩⟩

/-- Claim C2, counterexample: with maxAttempts 2 and every attempt
completing with status 500, check_url does fail after exactly 2 attempts
but its message is "🚫Failed after 2 attempts", not the claimed
"Failed after 2 attempts". -/
theorem C2_counterexample :
    (check_url "http://x/down" 2 1 http500).success = false ∧
    (check_url "http://x/down" 2 1 http500).attempts = 2 ∧
    (check_url "http://x/down" 2 1 http500).message = "🚫Failed after 2 attempts" ∧
    (check_url "http://x/down" 2 1 http500).message ≠ "Failed after 2 attempts" := by
  exact ⟨by decide, by decide, by decide, by decide⟩

/-- Claim C2, amended: with maxAttempts = k ≥ 1 and every attempt
returning a non-matching outcome, both check routines perform exactly k
attempts and return success = false; check_endpoint's message is exactly
"Failed after k attempts", while check_url's message is
"🚫Failed after k attempts". -/
theorem C2_failed_after_k (ep : EndpointSpec) (u : String) (k d : Nat)
    (http : Nat → HttpOutcome) (hu : ep.url = some u) (hk : 1 ≤ k)
    (hf : ∀ i, 1 ≤ i → i ≤ k →
      matchesStatus (ep.expected_status.getD 200) (http i) = false)
    (hf2 : ∀ i, 1 ≤ i → i ≤ k → matchesStatus 200 (http i) = false) :
    check_endpoint ep k d http =
      { success := false, message := "Failed after " ++ toString k ++ " attempts",
        attempts := k, sleeps := List.replicate (k - 1) d } ∧
    check_url u k d http =
      { success := false, message := "🚫Failed after " ++ toString k ++ " attempts",
        attempts := k, sleeps := List.replicate (k - 1) d } := by
  have hre : requests_get ep.url http = http := by rw [hu]; rfl
  constructor
  · unfold check_endpoint
    rw [hre]
    exact retryLoop_all_fail (ep.expected_status.getD 200) k d
      ("Failed after " ++ toString k ++ " attempts") http k 1 (by omega)
      (fun i hi1 hi2 => hf i hi1 (by omega))
  · unfold check_url
    rw [requests_get_some]
    exact retryLoop_all_fail 200 k d
      ("🚫Failed after " ++ toString k ++ " attempts") http k 1 (by omega)
      (fun i hi1 hi2 => hf2 i hi1 (by omega))

/-- Claim C2, witness: maxAttempts 2, delay 1, every attempt completing
with status 500 against expected status 200. -/
theorem C2_witness :
    check_endpoint epOk 2 1 http500 =
      { success := false, message := "Failed after " ++ toString 2 ++ " attempts",
        attempts := 2, sleeps := List.replicate 1 1 } ∧
    check_url "http://x/ok" 2 1 http500 =
      { success := false, message := "🚫Failed after " ++ toString 2 ++ " attempts",
        attempts := 2, sleeps := List.replicate 1 1 } :=
  C2_failed_after_k epOk "http://x/ok" 2 1 http500 rfl (by decide)
    (fun i hi1 hi2 => rfl) (fun i hi1 hi2 => rfl)

/-- Claim C4 (confirmed): if attempt j (1 ≤ j ≤ maxAttempts) is the first
attempt to produce the status the routine accepts (the endpoint's
expected_status for check_endpoint, 200 for check_url), then exactly j
HTTP attempts are made and the verdict is success = true. -/
theorem C4_first_success (ep : EndpointSpec) (u : String) (r d j ju : Nat)
    (http : Nat → HttpOutcome) (hu : ep.url = some u)
    (h1 : 1 ≤ j) (h2 : j ≤ r)
    (hm : matchesStatus (ep.expected_status.getD 200) (http j) = true)
    (hb : ∀ i, 1 ≤ i → i < j →
      matchesStatus (ep.expected_status.getD 200) (http i) = false)
    (g1 : 1 ≤ ju) (g2 : ju ≤ r)
    (gm : matchesStatus 200 (http ju) = true)
    (gb : ∀ i, 1 ≤ i → i < ju → matchesStatus 200 (http i) = false) :
    (check_endpoint ep r d http).success = true ∧
    (check_endpoint ep r d http).attempts = j ∧
    (check_url u r d http).success = true ∧
    (check_url u r d http).attempts = ju := by
  have hre : requests_get ep.url http = http := by rw [hu]; rfl
  have hce := retryLoop_first_match (ep.expected_status.getD 200) r d
    ("Failed after " ++ toString r ++ " attempts") http r 1 j h1 (by omega) h2 hm hb
  have hcu := retryLoop_first_match 200 r d
    ("🚫Failed after " ++ toString r ++ " attempts") http r 1 ju g1 (by omega) g2 gm gb
  unfold check_endpoint check_url
  rw [hre, requests_get_some, hce, hcu]
  refine ⟨rfl, ?_, rfl, ?_⟩
  · show j + 1 - 1 = j
    omega
  · show ju + 1 - 1 = ju
    omega

/-- Claim C4, witness: a server timing out on attempts 1 and 2 and
answering 200 on attempt 3, with maxAttempts 3: exactly 3 attempts and
success. -/
theorem C4_witness :
    (check_endpoint epOk 3 2 httpFlaky).success = true ∧
    (check_endpoint epOk 3 2 httpFlaky).attempts = 3 ∧
    (check_url "http://x/ok" 3 2 httpFlaky).success = true ∧
    (check_url "http://x/ok" 3 2 httpFlaky).attempts = 3 :=
  C4_first_success epOk "http://x/ok" 3 2 3 3 httpFlaky rfl (by decide) (by decide)
    (by decide) (fun i hi1 hi2 => by simp [httpFlaky, matchesStatus, hi2])
    (by decide) (by decide) (by decide)
    (fun i hi1 hi2 => by simp [httpFlaky, matchesStatus, hi2])

/-- Claim C5 (confirmed): in every run of either check routine the list
of sleeps is one delay-second sleep for each attempt except the last one
performed — a sleep follows a failed attempt exactly when its number is
below maxAttempts, and none follows the final attempt; in particular,
under permanent failure with maxAttempts = 3 and delay d, exactly 2
sleeps occur, for a total blocking sleep time of 2 × d. -/
theorem C5_sleeps (ep : EndpointSpec) (u : String) (r d : Nat)
    (http : Nat → HttpOutcome) :
    (check_endpoint ep r d http).sleeps =
      List.replicate ((check_endpoint ep r d http).attempts - 1) d ∧
    (check_url u r d http).sleeps =
      List.replicate ((check_url u r d http).attempts - 1) d ∧
    (0 < d →
      (∀ i, 1 ≤ i → i ≤ 3 →
        matchesStatus (ep.expected_status.getD 200) (http i) = false) →
      (check_endpoint ep 3 d http).attempts = 3 ∧
      (check_endpoint ep 3 d http).sleeps.length = 2 ∧
      (check_endpoint ep 3 d http).sleeps.sum = 2 * d) := by
  refine ⟨?_, ?_, ?_⟩
  · exact retryLoop_sleeps (ep.expected_status.getD 200) r d
      ("Failed after " ++ toString r ++ " attempts") (requests_get ep.url http) r 1
      (by omega)
  · exact retryLoop_sleeps 200 r d
      ("🚫Failed after " ++ toString r ++ " attempts") (requests_get (some u) http) r 1
      (by omega)
  · intro _hd hf
    have hf3 : ∀ i, 1 ≤ i → i < 1 + 3 →
        matchesStatus (ep.expected_status.getD 200) (requests_get ep.url http i) = false := by
      intro i hi1 hi2
      cases hc : ep.url with
      | none => rfl
      | some v =>
        show matchesStatus _ (requests_get (some v) http i) = false
        rw [requests_get_some]
        exact hf i hi1 (by omega)
    have haf := retryLoop_all_fail (ep.expected_status.getD 200) 3 d
      ("Failed after " ++ toString 3 ++ " attempts") (requests_get ep.url http) 3 1
      (by omega) hf3
    refine ⟨?_, ?_, ?_⟩
    · show (retryLoop _ 3 d _ (requests_get ep.url http) 1 3).attempts = 3
      rw [haf]
    · show (retryLoop _ 3 d _ (requests_get ep.url http) 1 3).sleeps.length = 2
      rw [haf]
      rfl
    · show (retryLoop _ 3 d _ (requests_get ep.url http) 1 3).sleeps.sum = 2 * d
      rw [haf]
      show d + (d + 0) = 2 * d
      omega

/-- Claim C5, witness: delay 4 against a server that always answers 500;
the general conjuncts are instantiated at maxAttempts 5, and the
permanent-failure implication is discharged with 0 < 4 and the always-500
oracle, giving 2 sleeps totalling 8 = 2 × 4 at maxAttempts 3. -/
theorem C5_witness :
    (check_endpoint epOk 5 4 http500).sleeps =
      List.replicate ((check_endpoint epOk 5 4 http500).attempts - 1) 4 ∧
    (check_url "http://x/ok" 5 4 http500).sleeps =
      List.replicate ((check_url "http://x/ok" 5 4 http500).attempts - 1) 4 ∧
    ((check_endpoint epOk 3 4 http500).attempts = 3 ∧
      (check_endpoint epOk 3 4 http500).sleeps.length = 2 ∧
      (check_endpoint epOk 3 4 http500).sleeps.sum = 2 * 4) :=
  ⟨(C5_sleeps epOk "http://x/ok" 5 4 http500).1,
   (C5_sleeps epOk "http://x/ok" 5 4 http500).2.1,
   (C5_sleeps epOk "http://x/ok" 5 4 http500).2.2 (by decide) (fun i hi1 hi2 => rfl)⟩

/-- Claim C6 (confirmed): every fault of the HTTP call — each caught
exception class — and every non-matching status is absorbed by the loop:
for all oracles the routine returns a well-formed (success, message)
verdict, either immediate success with its "Success: <status>" message or
the final failure message after exhausting all maxAttempts attempts;
nothing else can come out of check_endpoint or check_url. -/
theorem C6_total_result (ep : EndpointSpec) (u : String) (r d : Nat)
    (http : Nat → HttpOutcome) :
    (((check_endpoint ep r d http).success = true ∧
        (check_endpoint ep r d http).message =
          "Success: " ++ toString (ep.expected_status.getD 200)) ∨
      ((check_endpoint ep r d http).success = false ∧
        (check_endpoint ep r d http).message =
          "Failed after " ++ toString r ++ " attempts" ∧
        (check_endpoint ep r d http).attempts = r)) ∧
    (((check_url u r d http).success = true ∧
        (check_url u r d http).message = "Success: " ++ toString 200) ∨
      ((check_url u r d http).success = false ∧
        (check_url u r d http).message =
          "🚫Failed after " ++ toString r ++ " attempts" ∧
        (check_url u r d http).attempts = r)) := by
  constructor
  · exact retryLoop_shape (ep.expected_status.getD 200) r d
      ("Failed after " ++ toString r ++ " attempts") (requests_get ep.url http) r 1
  · exact retryLoop_shape 200 r d
      ("🚫Failed after " ++ toString r ++ " attempts") (requests_get (some u) http) r 1

/-- Claim C9 (confirmed): the verdict of either check routine depends
only on the endpoint, the policy, and the outcomes the HTTP client
supplies for the attempts actually within range — two oracles agreeing on
attempts 1..maxAttempts produce identical traces, so two runs on the same
inputs produce the identical (success, message) pair. -/
theorem C9_deterministic (ep : EndpointSpec) (u : String) (r d : Nat)
    (http1 http2 : Nat → HttpOutcome)
    (hag : ∀ i, 1 ≤ i → i ≤ r → http1 i = http2 i) :
    check_endpoint ep r d http1 = check_endpoint ep r d http2 ∧
    check_url u r d http1 = check_url u r d http2 := by
  constructor
  · unfold check_endpoint
    apply retryLoop_frame
    intro i hi1 hi2
    cases hc : ep.url with
    | none => rfl
    | some v =>
      show requests_get (some v) http1 i = requests_get (some v) http2 i
      rw [requests_get_some, requests_get_some]
      exact hag i hi1 (by omega)
  · unfold check_url
    apply retryLoop_frame
    intro i hi1 hi2
    show http1 i = http2 i
    exact hag i hi1 (by omega)

/-- Claim C9, witness: two oracles agreeing on attempts 1..3 and
diverging from attempt 4 on give identical traces with maxAttempts 3. -/
theorem C9_witness :
    check_endpoint epOk 3 2 httpA = check_endpoint epOk 3 2 httpB ∧
    check_url "http://x/ok" 3 2 httpA = check_url "http://x/ok" 3 2 httpB :=
  C9_deterministic epOk "http://x/ok" 3 2 httpA httpB
    (fun i hi1 hi2 => by simp [httpA, httpB, hi2])

/-- Claim C10, counterexample: with maxAttempts 0, check_url indeed
issues no GET and no sleep and fails, but its message is
"🚫Failed after 0 attempts", not the claimed "Failed after 0 attempts". -/
theorem C10_counterexample :
    (check_url "http://x" 0 5 http200).success = false ∧
    (check_url "http://x" 0 5 http200).attempts = 0 ∧
    (check_url "http://x" 0 5 http200).sleeps = [] ∧
    (check_url "http://x" 0 5 http200).message = "🚫Failed after 0 attempts" ∧
    (check_url "http://x" 0 5 http200).message ≠ "Failed after 0 attempts" := by
  exact ⟨by decide, by decide, by decide, by decide, by decide⟩

/-- Claim C10, amended: with maxAttempts = 0 the loop body never runs in
either routine — no GET, no sleep — and the verdict is
(false, "Failed after 0 attempts") for check_endpoint and
(false, "🚫Failed after 0 attempts") for check_url. -/
theorem C10_zero_attempts (ep : EndpointSpec) (u : String) (d : Nat)
    (http : Nat → HttpOutcome) :
    check_endpoint ep 0 d http =
      { success := false, message := "Failed after 0 attempts",
        attempts := 0, sleeps := [] } ∧
    check_url u 0 d http =
      { success := false, message := "🚫Failed after 0 attempts",
        attempts := 0, sleeps := [] } := by
  exact ⟨rfl, rfl⟩

/-- Claim C3 (confirmed): in every run of either reporter, successful is
the number of results with success = true, total is the number of
results (hence successful ≤ total), the failed list is exactly the
results with success = false in order, and the script's result list
follows the original endpoint order. -/
theorem C3_summary_invariant (endpoints : List EndpointSpec) (retries delay : Nat)
    (http : Nat → Nat → HttpOutcome) :
    ((run_health_checks endpoints retries delay http).successful =
        ((run_health_checks endpoints retries delay http).results.filter
          (fun x => x.success)).length ∧
      (run_health_checks endpoints retries delay http).total =
        (run_health_checks endpoints retries delay http).results.length ∧
      (run_health_checks endpoints retries delay http).successful ≤
        (run_health_checks endpoints retries delay http).total ∧
      (run_health_checks endpoints retries delay http).failed =
        (run_health_checks endpoints retries delay http).results.filter
          (fun x => !x.success) ∧
      (run_health_checks endpoints retries delay http).results.map (fun x => x.url) =
        endpoints.map (fun ep => ep.url)) ∧
    ((packaged_main true true endpoints retries delay http).successful =
        ((packaged_main true true endpoints retries delay http).results.filter
          (fun x => x.success)).length ∧
      (packaged_main true true endpoints retries delay http).total =
        (packaged_main true true endpoints retries delay http).results.length ∧
      (packaged_main true true endpoints retries delay http).successful ≤
        (packaged_main true true endpoints retries delay http).total ∧
      (packaged_main true true endpoints retries delay http).failed =
        (packaged_main true true endpoints retries delay http).results.filter
          (fun x => !x.success)) := by
  constructor
  · cases endpoints with
    | nil =>
      exact ⟨rfl, rfl, Nat.le_refl 0, rfl, rfl⟩
    | cons e0 es =>
      have hs := summarize_spec ((runChecks retries delay http 0 (e0 :: es)).map
        script_result)
      refine ⟨hs.1, hs.2.1, hs.2.2.1, hs.2.2.2, ?_⟩
      show ((runChecks retries delay http 0 (e0 :: es)).map script_result).map
        (fun x => x.url) = _
      rw [List.map_map]
      exact runChecks_map_url retries delay http (e0 :: es) 0
  · cases endpoints with
    | nil =>
      exact ⟨rfl, rfl, Nat.le_refl 0, rfl⟩
    | cons e0 es =>
      have hs := summarize_spec ((packagedChecks retries delay http 0 (e0 :: es)).map
        (fun q => q.1))
      exact ⟨hs.1, hs.2.1, hs.2.2.1, hs.2.2.2⟩

/-- Claim C7, counterexample: the standalone script's main, given a
successfully loaded configuration whose endpoint list is empty, does
report the configuration error and performs zero HTTP calls, but the
process exits with code 0, not 1 (run_health_checks returns early and
main then returns 0). -/
theorem C7_counterexample :
    (script_main true [] 3 2 (fun _ _ => HttpOutcome.fault FaultKind.timeout)).configError
      = true ∧
    (script_main true [] 3 2 (fun _ _ => HttpOutcome.fault FaultKind.timeout)).httpCalls
      = 0 ∧
    (script_main true [] 3 2 (fun _ _ => HttpOutcome.fault FaultKind.timeout)).exitCode
      = 0 ∧
    (script_main true [] 3 2 (fun _ _ => HttpOutcome.fault FaultKind.timeout)).exitCode
      ≠ 1 := by
  exact ⟨rfl, rfl, rfl, by decide⟩

/-- Claim C7, amended: with an empty endpoint list both variants report a
configuration error and perform zero HTTP calls; the packaged monitor's
main exits with code 1, but the standalone script's main returns 0, since
run_health_checks merely returns early and main treats the run as
completed. -/
theorem C7_empty_endpoints (retries delay : Nat) (http : Nat → Nat → HttpOutcome) :
    (run_health_checks [] retries delay http).configError = true ∧
    (run_health_checks [] retries delay http).httpCalls = 0 ∧
    (run_health_checks [] retries delay http).results = [] ∧
    (script_main true [] retries delay http).exitCode = 0 ∧
    (packaged_main true true [] retries delay http).exitCode = 1 ∧
    (packaged_main true true [] retries delay http).configError = true ∧
    (packaged_main true true [] retries delay http).httpCalls = 0 := by
  exact ⟨rfl, rfl, rfl, rfl, rfl, rfl, rfl⟩

/-- Claim C8, counterexample: the standalone script's run_health_checks
does not skip an endpoint entry whose url is missing: endpoint.get('url')
yields None, requests.get(None) raises inside the per-attempt catch, and
after the retries the endpoint contributes an ordinary failed CheckResult
that is counted in total (total = 1, one result, success = false, and the
retry loop still burned 2 request attempts). -/
theorem C8_counterexample :
    (run_health_checks [epNoUrl] 2 0 (fun _ _ => HttpOutcome.status 200)).total = 1 ∧
    (run_health_checks [epNoUrl] 2 0 (fun _ _ => HttpOutcome.status 200)).results.map
      (fun x => x.success) = [false] ∧
    (run_health_checks [epNoUrl] 2 0 (fun _ _ => HttpOutcome.status 200)).httpCalls
      = 2 := by
  exact ⟨by decide, by decide, by decide⟩

/-- Claim C8, amended: only the packaged main skips a malformed endpoint
entry: its per-endpoint KeyError handler drops entries without a url, so
its total counts exactly the endpoints whose url is present while the
remaining entries are still processed in order; the standalone script's
run_health_checks skips nothing — every endpoint, url or not, yields a
CheckResult counted in total. -/
theorem C8_missing_url (endpoints : List EndpointSpec) (retries delay : Nat)
    (http : Nat → Nat → HttpOutcome) :
    (packaged_main true true endpoints retries delay http).total =
      (endpoints.filter (fun ep => ep.url.isSome)).length ∧
    (run_health_checks endpoints retries delay http).total = endpoints.length := by
  constructor
  · cases endpoints with
    | nil => rfl
    | cons e0 es =>
      show ((packagedChecks retries delay http 0 (e0 :: es)).map (fun q => q.1)).length = _
      rw [List.length_map]
      exact packagedChecks_length retries delay http (e0 :: es) 0
  · cases endpoints with
    | nil => rfl
    | cons e0 es =>
      show ((runChecks retries delay http 0 (e0 :: es)).map _).length = _
      rw [List.length_map]
      exact runChecks_length retries delay http (e0 :: es) 0

end HealthMonitor
